import Mathlib

/-!
Shallow embedding of the sark orchestrator core (src/core and src/api) and
proofs about its specification claims.

Conventions of the embedding:
- Python dicts keyed by entity id become insertion-ordered association lists
  over String keys; dict assignment is alSet, guarded in-place update
  (if key in d) is alModify, and d.get(k) is alGet.
- Wall-clock reads (time.time()) become an explicit `now : Nat` argument.
- Python truthiness on optional strings (None and the empty string are falsy)
  is truthyStr.
- Float arithmetic of the retry delays is modelled over the rationals.
- File system and broker side effects (CSV files, JSON snapshots, Redis push)
  do not change the four in-memory maps; broker pushes are returned as an
  explicit list of (queue, payload) pairs where a claim needs them.
-/

namespace Sark

/-- Python truthiness for an optional string: None and the empty string are
falsy, every other string is truthy. -/
def truthyStr : Option String → Bool
  | none => false
  | some s => s ≠ ""

/-- Dict assignment d[k] = v on an association list: replaces the binding of
the first occurrence of k, appends when k is absent. -/
def alSet (k : String) (v : α) : List (String × α) → List (String × α)
  | [] => [(k, v)]
  | (k', v') :: rest => if k' = k then (k, v) :: rest else (k', v') :: alSet k v rest

/-- Guarded in-place update: applies f to the value bound to k when k is
present, otherwise leaves the list unchanged (the `if k in d` pattern). -/
def alModify (k : String) (f : α → α) : List (String × α) → List (String × α)
  | [] => []
  | (k', v') :: rest => if k' = k then (k', f v') :: rest else (k', v') :: alModify k f rest

/-- Dict read d.get(k): the value bound to the first occurrence of k. -/
def alGet (k : String) : List (String × α) → Option α
  | [] => none
  | (k', v') :: rest => if k' = k then some v' else alGet k rest

/-- Worker row of InMemoryStore.workers (inmemory_store.py); the extracted
device fields are kept as strings (they are rendered from the JSON payload). -/
structure Worker where
  device_name : String := ""
  ip_address : String := ""
  capabilities : List String := []
  soc : String := ""
  ram_gb : String := "0"
  os_name : String := ""
  os_version : String := ""
  udid : String := ""
  status : String := ""
  registered_at : Nat := 0
  last_seen : Nat := 0
deriving DecidableEq

/-- Campaign row of InMemoryStore.campaigns. The mutable jobs array the HTTP
edge embeds in the row is tracking data no core claim reads and is omitted. -/
structure Campaign where
  model_url : String := ""
  total_jobs : Nat := 0
  completed_jobs : Nat := 0
  failed_jobs : Nat := 0
  status : String := ""
  created_at : Nat := 0
deriving DecidableEq

/-- Job row of InMemoryStore.jobs. -/
structure Job where
  campaign_id : String := ""
  model_url : String := ""
  compute_unit : Option String := none
  worker_id : Option String := none
  num_inference_runs : Nat := 10
  timeout_seconds : Option Nat := none
  status : String := ""
  submitted_at : Nat := 0
  started_at : Option Nat := none
  completed_at : Option Nat := none
  retry_count : Nat := 0
deriving DecidableEq

/-- A result message as popped from the results channel; metric fields are an
opaque bag of key and value strings. -/
structure ResultMsg where
  job_id : String
  campaign_id : Option String := none
  status : String := "Unknown"
  payload : List (String × String) := []
deriving DecidableEq

/-- Stored result row: the message plus the saved_at stamp added by
InMemoryStore.save_result. -/
structure ResultRec where
  msg : ResultMsg
  saved_at : Nat
deriving DecidableEq

/-- The four maps of InMemoryStore. -/
structure Store where
  workers : List (String × Worker) := []
  campaigns : List (String × Campaign) := []
  jobs : List (String × Job) := []
  results : List (String × ResultRec) := []
deriving DecidableEq

/-- InMemoryStore.register_worker: stamps registered_at, status active and
last_seen, then assigns the row (overwriting an existing binding). -/
def register_worker (now : Nat) (worker_id : String) (w : Worker) (s : Store) : Store :=
  { s with
    workers := alSet worker_id
      ({ w with registered_at := now, status := "active", last_seen := now }) s.workers }

/-- InMemoryStore.update_worker_status: when the worker exists, sets the given
status unconditionally and refreshes last_seen; no validation is performed. -/
def update_worker_status (now : Nat) (worker_id status : String) (s : Store) : Store :=
  { s with workers :=
      alModify worker_id (fun w => { w with status := status, last_seen := now }) s.workers }

/-- InMemoryStore.create_campaign: stamps created_at, status running and zero
counters, then assigns the row. -/
def create_campaign (now : Nat) (campaign_id model_url : String) (total_jobs : Nat)
    (s : Store) : Store :=
  { s with
    campaigns := alSet campaign_id
      ({ model_url := model_url, total_jobs := total_jobs, created_at := now,
         status := "running", completed_jobs := 0, failed_jobs := 0 }) s.campaigns }

/-- InMemoryStore.update_campaign_progress: when the campaign exists, applies
the requested increments and then the status (skipped for a falsy status). -/
def update_campaign_progress (campaign_id : String) (status : Option String)
    (increment_completed increment_failed : Bool) (s : Store) : Store :=
  { s with
    campaigns := alModify campaign_id (fun c =>
      let c := if increment_completed then { c with completed_jobs := c.completed_jobs + 1 } else c
      let c := if increment_failed then { c with failed_jobs := c.failed_jobs + 1 } else c
      if truthyStr status then { c with status := status.getD "" } else c) s.campaigns }

/-- InMemoryStore.create_job: stamps submitted_at, status pending and zero
retry_count, then assigns the row. -/
def create_job (now : Nat) (job_id : String) (j : Job) (s : Store) : Store :=
  { s with
    jobs := alSet job_id
      ({ j with submitted_at := now, status := "pending", retry_count := 0 }) s.jobs }

/-- InMemoryStore.update_job_status: when the job exists, sets the status;
stamps started_at (and the worker pin, when truthy) on status running, and
completed_at on the lowercase terminal statuses. -/
def update_job_status (now : Nat) (job_id status : String) (worker_id : Option String)
    (s : Store) : Store :=
  { s with
    jobs := alModify job_id (fun j =>
      let j := { j with status := status }
      if status = "running" then
        let j := { j with started_at := some now }
        if truthyStr worker_id then { j with worker_id := worker_id } else j
      else if status = "complete" ∨ status = "failed" ∨ status = "cancelled" then
        { j with completed_at := some now }
      else j) s.jobs }

/-- InMemoryStore.increment_job_retry: bumps and returns the retry count of an
existing job; returns 0 and leaves the store unchanged for an unknown id. -/
def increment_job_retry (job_id : String) (s : Store) : Store × Nat :=
  match alGet job_id s.jobs with
  | some j =>
      ({ s with
         jobs := alModify job_id (fun j => { j with retry_count := j.retry_count + 1 }) s.jobs },
       j.retry_count + 1)
  | none => (s, 0)

/-- InMemoryStore.save_result: stamps saved_at and assigns the row keyed by the
job id of the message, overwriting any previous result. -/
def save_result (now : Nat) (m : ResultMsg) (s : Store) : Store :=
  { s with results := alSet m.job_id ⟨m, now⟩ s.results }

example : (update_worker_status 7 ("w") ("busy")
    (register_worker 3 ("w") {} {})).workers =
    [(("w"), { device_name := "", status := "busy", registered_at := 3, last_seen := 7 })] := by
  decide

/-- ResultProcessor._process_single_result (result_processor.py): saves the
result, writes the raw result status onto the job, and for a truthy campaign
id applies the counter increment selected by the capitalized status, then
marks the campaign completed when the counters have reached total_jobs and
total_jobs is positive. CSV generation and the forced snapshot are file
system effects outside the four maps and are omitted. -/
def process_single_result (now : Nat) (m : ResultMsg) (s : Store) : Store :=
  let s := save_result now m s
  let s := update_job_status now m.job_id m.status none s
  if truthyStr m.campaign_id then
    let cname := m.campaign_id.getD ""
    let s :=
      if m.status = "Complete" then update_campaign_progress cname none true false s
      else if m.status = "Failed" then update_campaign_progress cname none false true s
      else s
    match alGet cname s.campaigns with
    | some camp =>
        if camp.completed_jobs + camp.failed_jobs ≥ camp.total_jobs ∧ camp.total_jobs > 0 then
          update_campaign_progress cname (some "completed") false false s
        else s
    | none => s
  else s

/-- Routing payload read by JobDispatcher.determine_queues. -/
structure JobInfo where
  job_id : String
  worker_id : Option String := none
  compute_unit : Option String := none
deriving DecidableEq

/-- JobDispatcher.determine_queues (job_dispatcher.py): first match on a
truthy worker_id gives the pinned queue, else a truthy compute_unit gives the
capability queue with the raw tag, else no queue. -/
def determine_queues (ji : JobInfo) : List String :=
  if truthyStr ji.worker_id then
    ["jobs:" ++ ji.worker_id.getD ""]
  else if truthyStr ji.compute_unit then
    ["jobs:capability:" ++ ji.compute_unit.getD ""]
  else []

/-- JobDispatcher.push_job_to_queues: pushes the job id to every determined
queue; returns false and performs no push when no queue was determined. The
broker push itself is external and modelled as always succeeding. -/
def push_job_to_queues (ji : JobInfo) : Bool × List (String × String) :=
  let queues := determine_queues ji
  if queues = [] then (false, [])
  else (true, queues.map (fun q => (q, ji.job_id)))

/-- Compute-unit tag normalization, modelled from the words of the spec
(section 4.2): the tag is lowercased, parentheses are removed, and spaces are
replaced by underscores. Used only to compare the dispatcher against the
spec; the source dispatcher applies no normalization. -/
def normalize_unit_spec (s : String) : String :=
  String.mk ((((s.data.map Char.toLower).filter
    (fun c => c ≠ '(' ∧ c ≠ ')')).map (fun c => if c = ' ' then '_' else c)))

/-- Dispatcher routing as worded by the spec (section 4.2), for comparison
with determine_queues: identical except that the capability tag is
normalized. -/
def determine_queues_spec (ji : JobInfo) : List String :=
  if truthyStr ji.worker_id then
    ["jobs:" ++ ji.worker_id.getD ""]
  else if truthyStr ji.compute_unit then
    ["jobs:capability:" ++ normalize_unit_spec (ji.compute_unit.getD "")]
  else []

/-- WorkerState (state_machine.py). -/
inductive WorkerState where
  | active
  | busy
  | cleanup
  | faulty
deriving DecidableEq

/-- StateMachine.VALID_TRANSITIONS (state_machine.py). -/
def valid_transitions : WorkerState → List WorkerState
  | WorkerState.active => [WorkerState.busy, WorkerState.faulty]
  | WorkerState.busy => [WorkerState.cleanup, WorkerState.faulty]
  | WorkerState.cleanup => [WorkerState.active, WorkerState.faulty]
  | WorkerState.faulty => [WorkerState.active]

/-- StateMachine.can_transition: no self-transitions, otherwise membership in
the VALID_TRANSITIONS table. -/
def can_transition (state target : WorkerState) : Bool :=
  if state = target then false
  else decide (target ∈ valid_transitions state)

/-- StateMachine.transition: returns the new state, or the
InvalidStateTransition error for a transition can_transition refuses. -/
def transition (state target : WorkerState) : Except String WorkerState :=
  if can_transition state target then Except.ok target
  else Except.error ("InvalidStateTransition")

/-- The section 4.6 transition graph exactly as the claim words it:
active to busy or faulty, busy to cleanup or faulty, cleanup to active or
faulty, faulty to active, and no self-transitions. -/
def spec_graph : WorkerState → WorkerState → Bool
  | WorkerState.active, WorkerState.busy => true
  | WorkerState.active, WorkerState.faulty => true
  | WorkerState.busy, WorkerState.cleanup => true
  | WorkerState.busy, WorkerState.faulty => true
  | WorkerState.cleanup, WorkerState.active => true
  | WorkerState.cleanup, WorkerState.faulty => true
  | WorkerState.faulty, WorkerState.active => true
  | _, _ => false

/-- RetryPolicy (retry_manager.py); float delays are modelled as rationals. -/
structure RetryPolicy where
  max_attempts : Nat := 3
  initial_delay : ℚ := 1
  max_delay : ℚ := 300
  backoff_multiplier : ℚ := 2
  jitter : Bool := true
deriving DecidableEq

/-- RetryPolicy.should_retry. -/
def RetryPolicy.should_retry (p : RetryPolicy) (attempt : Nat) : Bool :=
  attempt < p.max_attempts

/-- RetryPolicy.get_delay; the jitter sample time.time() mod 1 becomes the
explicit argument nowFrac. The cap at max_delay is applied before jitter. -/
def RetryPolicy.get_delay (p : RetryPolicy) (attempt : Nat) (nowFrac : ℚ) : ℚ :=
  let delay := if attempt = 0 then p.initial_delay
               else p.initial_delay * p.backoff_multiplier ^ attempt
  let delay := min delay p.max_delay
  if p.jitter then delay + delay * (1 / 4) * nowFrac else delay

/-- ExponentialBackoffCalculator.calculate_delay: returns initial_delay
directly at attempt 0, otherwise the capped exponential value. -/
def calculate_delay (attempt : Nat) (initial_delay multiplier max_delay : ℚ) : ℚ :=
  if attempt = 0 then initial_delay
  else min (initial_delay * multiplier ^ attempt) max_delay

/-- One record of RetryTracker.retry_history. -/
structure RetryRecord where
  timestamp : Nat
  reason : String
  attempt : Nat
deriving DecidableEq

/-- RetryTracker.retry_history: job id to its append-only record list. -/
abbrev RetryHistory := List (String × List RetryRecord)

/-- RetryTracker.get_attempt_count: one more than the number of recorded
retries (the initial execution counts as attempt 1). -/
def get_attempt_count (h : RetryHistory) (job_id : String) : Nat :=
  ((alGet job_id h).getD []).length + 1

/-- RetryTracker.record_retry: appends a record to the history of the job. -/
def record_retry (now : Nat) (job_id reason : String) (attempt : Nat)
    (h : RetryHistory) : RetryHistory :=
  alSet job_id (((alGet job_id h).getD []) ++ [⟨now, reason, attempt⟩]) h

/-- RetryManager.retry_job: refuses once the attempt count has reached
max_attempts, otherwise records the retry (with the pre-record attempt count)
and reports success. -/
def retry_job (p : RetryPolicy) (now : Nat) (job_id reason : String)
    (h : RetryHistory) : Bool × RetryHistory :=
  if p.should_retry (get_attempt_count h job_id) then
    (true, record_retry now job_id reason (get_attempt_count h job_id) h)
  else (false, h)

/-- Combined mutable state touched by JobTimeoutHandler._handle_job_timeout:
the store, the retry history of the manager, and the list of broker pushes
(queue name and payload) it has performed. -/
structure TimeoutState where
  store : Store
  history : RetryHistory
  pushed : List (String × String) := []

/-- JobTimeoutHandler._handle_job_timeout (job_timeout.py) on a job row the
monitor found timed out: marks the job timed_out, marks a truthy pinned
worker faulty, and consults the retry manager. On retry it only pushes the
job id to the capability queue of a truthy compute_unit; the locally built
pending record with a cleared pin is never written back to the store. On
exhausted retries it marks the job failed and bumps the failed counter of a
truthy campaign. -/
def handle_job_timeout (p : RetryPolicy) (now : Nat) (job_id : String) (job : Job)
    (ts : TimeoutState) : TimeoutState :=
  let s := update_job_status now job_id ("timed_out") none ts.store
  let s := if truthyStr job.worker_id then
             update_worker_status now (job.worker_id.getD "") ("faulty") s
           else s
  let r := retry_job p now job_id ("job_timeout") ts.history
  if r.fst then
    let pushed := if truthyStr job.compute_unit then
                    ts.pushed ++ [("jobs:capability:" ++ job.compute_unit.getD "", job_id)]
                  else ts.pushed
    { store := s, history := r.snd, pushed := pushed }
  else
    let s := update_job_status now job_id ("failed") none s
    let s := if job.campaign_id ≠ "" then
               update_campaign_progress job.campaign_id none false true s
             else s
    { store := s, history := r.snd, pushed := ts.pushed }

/-- The device_info blob of a registration request, with the fields
get_deterministic_worker_id and register_worker read; values are kept as
their string renderings, and the absent-Ram default 0 renders as "0". -/
structure DeviceInfo where
  udid : Option String := none
  device_name : Option String := none
  soc : Option String := none
  ram : Option String := none
  device_os : Option String := none
  os_version : Option String := none
deriving DecidableEq

/-- Python str.strip applied with the underscore character: removes leading
and trailing underscores. The fallback device key of
get_deterministic_worker_id below is the underscore-joined rendering of
DeviceName, Soc, Ram and DeviceOs. -/
def stripUnderscores (s : String) : String :=
  String.mk (((s.data.dropWhile (· = '_')).reverse.dropWhile (· = '_')).reverse)

/-- The fallback identification key of get_deterministic_worker_id. -/
def device_key (d : DeviceInfo) : String :=
  d.device_name.getD "" ++ "_" ++ d.soc.getD "" ++ "_" ++
    d.ram.getD "0" ++ "_" ++ d.device_os.getD ""

/-- get_deterministic_worker_id (api/endpoints.py). The md5 hex digest of the
standard library (truncated to 12 characters) is the external function
md5hex12, and the uuid4 draw of the random last resort is the external input
fresh: the id is worker- followed by the hash of a truthy UDID, else by the
hash of the device_name, soc, ram, os key when that key survives stripping
underscores, else by the random draw. -/
def get_deterministic_worker_id (md5hex12 : String → String) (fresh : String)
    (d : DeviceInfo) : String :=
  if truthyStr d.udid then "worker-" ++ md5hex12 (d.udid.getD "")
  else if stripUnderscores (device_key d) ≠ "" then "worker-" ++ md5hex12 (device_key d)
  else "worker-" ++ fresh

/-- register_worker endpoint (api/endpoints.py, after field validation):
derives the worker id, then either refreshes an existing row to active via
update_worker_status or registers the assembled row. Returns the id. -/
def register_worker_endpoint (md5hex12 : String → String) (fresh : String) (now : Nat)
    (device_name ip_address : String) (capabilities : List String) (d : DeviceInfo)
    (s : Store) : Store × String :=
  let worker_id := get_deterministic_worker_id md5hex12 fresh d
  match alGet worker_id s.workers with
  | some _ => (update_worker_status now worker_id ("active") s, worker_id)
  | none =>
      (register_worker now worker_id
        ({ device_name := device_name, ip_address := ip_address,
           capabilities := capabilities, soc := d.soc.getD "", ram_gb := d.ram.getD "0",
           os_name := d.device_os.getD "", os_version := d.os_version.getD "",
           udid := d.udid.getD "" }) s, worker_id)

/-- One entry of the jobs array of a campaign creation request. -/
structure JobSpec where
  compute_unit : Option String := none
  worker_id : Option String := none
  num_inference_runs : Nat := 10
deriving DecidableEq

/-- create_campaign endpoint (api/endpoints.py, after field validation): the
campaign id is campaign- followed by the request timestamp, the campaign row
is created with total_jobs equal to the length of the jobs list, and one job
row per spec is created (compute_unit defaulting to CPU). Broker pushes do
not change the store and are omitted here. -/
def create_campaign_endpoint (now : Nat) (model_url : String) (jobs : List JobSpec)
    (s : Store) : Store × String :=
  let campaign_id := "campaign-" ++ toString now
  let s := create_campaign now campaign_id model_url jobs.length s
  let s := (List.zip (List.range jobs.length) jobs).foldl (fun s iandspec =>
    create_job now (campaign_id ++ "-job-" ++ toString iandspec.fst)
      ({ campaign_id := campaign_id, model_url := model_url,
         compute_unit := some (iandspec.snd.compute_unit.getD "CPU"),
         worker_id := iandspec.snd.worker_id,
         num_inference_runs := iandspec.snd.num_inference_runs }) s) s
  (s, campaign_id)

/-- One transition of the orchestrator on the store, as driven by the HTTP
edge (registration, status put, heartbeat, operator reset, campaign creation,
full reset) and the background loops (result processing, health monitoring,
timeout handling). Result messages come from external workers over an
at-least-once channel, so any message, duplicates included, may arrive; the
retry history and the clock are external inputs of the timeout step. -/
inductive SysStep : Store → Store → Prop where
  | register (s : Store) (md5hex12 : String → String) (fresh : String) (now : Nat)
      (device_name ip_address : String) (capabilities : List String) (d : DeviceInfo) :
      SysStep s (register_worker_endpoint md5hex12 fresh now device_name ip_address
        capabilities d s).fst
  | put_worker_status (s : Store) (now : Nat) (worker_id st : String)
      (hst : st = "active" ∨ st = "busy" ∨ st = "cleanup" ∨ st = "faulty") :
      SysStep s (update_worker_status now worker_id st s)
  | heartbeat (s : Store) (now : Nat) (worker_id : String) (w : Worker)
      (hw : alGet worker_id s.workers = some w) :
      SysStep s (update_worker_status now worker_id
        (if w.status = "faulty" then "active" else w.status) s)
  | reset_worker (s : Store) (now : Nat) (worker_id : String) (w : Worker)
      (hw : alGet worker_id s.workers = some w) (hf : w.status = "faulty") :
      SysStep s (update_worker_status now worker_id ("active") s)
  | mark_faulty (s : Store) (now : Nat) (worker_id : String) (w : Worker)
      (hw : alGet worker_id s.workers = some w) (hnf : w.status ≠ "faulty") :
      SysStep s (update_worker_status now worker_id ("faulty") s)
  | create_campaign_req (s : Store) (now : Nat) (model_url : String) (jobs : List JobSpec) :
      SysStep s (create_campaign_endpoint now model_url jobs s).fst
  | process_result (s : Store) (now : Nat) (m : ResultMsg) :
      SysStep s (process_single_result now m s)
  | job_timeout (s : Store) (p : RetryPolicy) (default_timeout now : Nat)
      (job_id : String) (job : Job) (h : RetryHistory) (pushed : List (String × String))
      (hj : alGet job_id s.jobs = some job) (hrun : job.status = "running")
      (t : Nat) (hst : job.started_at = some t)
      (hto : job.timeout_seconds.getD default_timeout + t < now) :
      SysStep s (handle_job_timeout p now job_id job ⟨s, h, pushed⟩).store
  | reset_all (s : Store) : SysStep s {}

/-- A store state is reachable when a finite sequence of system steps leads
to it from the empty store the orchestrator starts with. -/
def Reachable (s : Store) : Prop :=
  Relation.ReflTransGen SysStep {} s

/-- Number of bindings of a key in an association list. -/
def countKey (k : String) (l : List (String × α)) : Nat :=
  (l.filter (fun p => p.fst = k)).length

theorem alGet_alSet (k k2 : String) (v : α) (l : List (String × α)) :
    alGet k2 (alSet k v l) = if k2 = k then some v else alGet k2 l := by
  induction l with
  | nil =>
      by_cases h2 : k2 = k
      · simp [alSet, alGet, h2]
      · have h2x : ¬k = k2 := fun h => h2 h.symm
        simp [alSet, alGet, h2, h2x]
  | cons hd tl ih =>
      obtain ⟨k0, v0⟩ := hd
      by_cases h0 : k0 = k <;> by_cases h2 : k2 = k0
      · have hk2k : k2 = k := h2.trans h0
        have hkk2 : k = k2 := hk2k.symm
        simp only [alSet, alGet, if_pos h0, if_pos hkk2, if_pos hk2k]
      · have hk2k : ¬k2 = k := fun h => h2 (h.trans h0.symm)
        have hkk2 : ¬k = k2 := fun h => hk2k h.symm
        have h0k2 : ¬k0 = k2 := fun h => h2 h.symm
        simp only [alSet, alGet, if_pos h0, if_neg hk2k, if_neg hkk2, if_neg h0k2]
      · have hk2k : ¬k2 = k := fun h => h0 (h2.symm.trans h)
        simp [alSet, alGet, h0, h2.symm, hk2k]
      · have h0k2 : ¬k0 = k2 := fun h => h2 h.symm
        simp [alSet, alGet, h0, h0k2, ih]

theorem alGet_alModify (k k2 : String) (f : α → α) (l : List (String × α)) :
    alGet k2 (alModify k f l) =
      if k2 = k then (alGet k l).map f else alGet k2 l := by
  induction l with
  | nil => simp [alModify, alGet]
  | cons hd tl ih =>
      obtain ⟨k0, v0⟩ := hd
      by_cases h0 : k0 = k <;> by_cases h2 : k2 = k0
      · have hk2k : k2 = k := h2.trans h0
        have h0k2 : k0 = k2 := h2.symm
        simp only [alModify, alGet, if_pos h0, if_pos hk2k, if_pos h0k2,
          if_pos (h0k2.symm.trans h0), Option.map_some]
        rfl
      · have hk2k : ¬k2 = k := fun h => h2 (h.trans h0.symm)
        have hkk2 : ¬k = k2 := fun h => hk2k h.symm
        have h0k2 : ¬k0 = k2 := fun h => h2 h.symm
        simp only [alModify, alGet, if_pos h0, if_neg hk2k, if_neg hkk2, if_neg h0k2]
      · have hk2k : ¬k2 = k := fun h => h0 (h2.symm.trans h)
        simp [alModify, alGet, h0, h2.symm, hk2k]
      · have h0k2 : ¬k0 = k2 := fun h => h2 h.symm
        simp [alModify, alGet, h0, h0k2, ih]

theorem alModify_of_alGet_none (k : String) (f : α → α) (l : List (String × α))
    (h : alGet k l = none) : alModify k f l = l := by
  induction l with
  | nil => rfl
  | cons hd tl ih =>
      obtain ⟨k0, v0⟩ := hd
      by_cases h0 : k0 = k
      · simp [alGet, h0] at h
      · simp only [alGet, h0, if_neg, ite_false] at h
        simp [alModify, h0, ih h]

theorem countKey_cons (k k0 : String) (v0 : α) (tl : List (String × α)) :
    countKey k ((k0, v0) :: tl) = (if k0 = k then 1 else 0) + countKey k tl := by
  by_cases h : k0 = k
  · simp [countKey, List.filter_cons, h]
    omega
  · simp [countKey, List.filter_cons, h]

theorem countKey_alModify (k k2 : String) (f : α → α) (l : List (String × α)) :
    countKey k2 (alModify k f l) = countKey k2 l := by
  induction l with
  | nil => rfl
  | cons hd tl ih =>
      obtain ⟨k0, v0⟩ := hd
      by_cases h0 : k0 = k
      · simp [alModify, h0, countKey_cons]
      · simp [alModify, h0, countKey_cons, ih]

theorem countKey_alSet_of_none (k : String) (v : α) (l : List (String × α))
    (h : alGet k l = none) : countKey k (alSet k v l) = countKey k l + 1 := by
  induction l with
  | nil => simp [alSet, countKey_cons, countKey]
  | cons hd tl ih =>
      obtain ⟨k0, v0⟩ := hd
      by_cases h0 : k0 = k
      · simp [alGet, h0] at h
      · simp only [alGet, h0, if_neg, ite_false] at h
        simp [alSet, h0, countKey_cons, ih h]

theorem countKey_alSet_of_some (k : String) (v w : α) (l : List (String × α))
    (h : alGet k l = some w) : countKey k (alSet k v l) = countKey k l := by
  induction l with
  | nil => simp [alGet] at h
  | cons hd tl ih =>
      obtain ⟨k0, v0⟩ := hd
      by_cases h0 : k0 = k
      · simp [alSet, h0, countKey_cons]
      · simp only [alGet, h0, if_neg, ite_false] at h
        simp [alSet, h0, countKey_cons, ih h]

theorem alGet_none_iff_countKey_zero (k : String) (l : List (String × α)) :
    alGet k l = none ↔ countKey k l = 0 := by
  induction l with
  | nil => simp [countKey, alGet]
  | cons hd tl ih =>
      obtain ⟨k0, v0⟩ := hd
      by_cases h0 : k0 = k
      · simp [alGet, countKey_cons, h0]
      · simp [alGet, countKey_cons, h0, ih]

/-!
Claim C10: unknown-id behavior of the four store mutators.
-/

/-- C10: for every id not present in the store, update_worker_status,
update_job_status, update_campaign_progress and increment_job_retry return
normally and leave the store unchanged, and increment_job_retry additionally
returns 0 for an unknown job id. -/
theorem C10_unknown_id_mutators_noop (s : Store) (now : Nat)
    (wid wst jid jst cid : String) (jwid cst : Option String) (b1 b2 : Bool)
    (hw : alGet wid s.workers = none) (hj : alGet jid s.jobs = none)
    (hc : alGet cid s.campaigns = none) :
    update_worker_status now wid wst s = s ∧
    update_job_status now jid jst jwid s = s ∧
    update_campaign_progress cid cst b1 b2 s = s ∧
    increment_job_retry jid s = (s, 0) := by
  refine ⟨?_, ?_, ?_, ?_⟩
  · rw [update_worker_status, alModify_of_alGet_none _ _ _ hw]
  · rw [update_job_status, alModify_of_alGet_none _ _ _ hj]
  · rw [update_campaign_progress, alModify_of_alGet_none _ _ _ hc]
  · rw [increment_job_retry, hj]

/-- C10 witness at the empty store. -/
theorem C10_unknown_id_mutators_noop_witness :
    update_worker_status 1 ("w") ("busy") ({} : Store) = {} ∧
    update_job_status 1 ("j") ("complete") none ({} : Store) = {} ∧
    update_campaign_progress ("c") none true true ({} : Store) = {} ∧
    increment_job_retry ("j") ({} : Store) = ({}, 0) :=
  C10_unknown_id_mutators_noop {} 1 ("w") ("busy") ("j") ("complete") ("c")
    none none true true rfl rfl rfl

/-!
Claim C9: the exponential backoff delay formula.
-/

/-- C9 (amended): with jitter disabled RetryPolicy.get_delay equals
min(initial_delay times multiplier to the k, max_delay) for every attempt
index k including 0, while ExponentialBackoffCalculator.calculate_delay
equals that value for k at least 1 but returns initial_delay uncapped at
k equal to 0. -/
theorem C9_backoff_delay_formula (p : RetryPolicy) (k : Nat) (nowFrac i m d : ℚ)
    (hj : p.jitter = false) :
    p.get_delay k nowFrac = min (p.initial_delay * p.backoff_multiplier ^ k) p.max_delay ∧
    (k ≠ 0 → calculate_delay k i m d = min (i * m ^ k) d) ∧
    calculate_delay 0 i m d = i := by
  refine ⟨?_, ?_, ?_⟩
  · by_cases hk : k = 0
    · simp [RetryPolicy.get_delay, hk, hj]
    · simp [RetryPolicy.get_delay, hk, hj]
  · intro hk
    simp [calculate_delay, hk]
  · simp [calculate_delay]

/-- C9 witness: the amended formula at the default policy with jitter off,
attempt 1, and at a custom calculator configuration. -/
theorem C9_backoff_delay_formula_witness :
    RetryPolicy.get_delay ({ jitter := false }) 1 0 =
      min ((1 : ℚ) * 2 ^ 1) 300 ∧
    ((1 : Nat) ≠ 0 → calculate_delay 1 5 2 3 = min ((5 : ℚ) * 2 ^ 1) 3) ∧
    calculate_delay 0 5 2 3 = 5 :=
  C9_backoff_delay_formula ({ jitter := false }) 1 0 5 2 3 rfl

/-- C9 counterexample: at attempt 0 with initial_delay 500 above max_delay
300, calculate_delay returns 500, not the claimed capped value 300, so the
delay exceeds max_delay at k equal to 0. -/
theorem C9_counterexample :
    calculate_delay 0 500 2 300 = 500 ∧
    min ((500 : ℚ) * 2 ^ 0) 300 = 300 ∧
    ¬ calculate_delay 0 500 2 300 ≤ 300 := by
  refine ⟨rfl, by norm_num, by norm_num [calculate_delay]⟩

/-!
Claim C5: dispatcher routing.
-/

/-- C5 (amended): the dispatcher routes by first match: a truthy worker_id
gives exactly the pinned queue, else a truthy compute_unit gives exactly the
capability queue with the tag used raw (no normalization), else no queue is
determined and push_job_to_queues pushes nothing and reports failure. -/
theorem C5_dispatcher_first_match (ji : JobInfo) :
    (truthyStr ji.worker_id = true →
      determine_queues ji = [("jobs:" ++ ji.worker_id.getD "")]) ∧
    (truthyStr ji.worker_id = false → truthyStr ji.compute_unit = true →
      determine_queues ji = [("jobs:capability:" ++ ji.compute_unit.getD "")]) ∧
    (truthyStr ji.worker_id = false → truthyStr ji.compute_unit = false →
      determine_queues ji = [] ∧ push_job_to_queues ji = (false, [])) := by
  refine ⟨?_, ?_, ?_⟩
  · intro h
    simp [determine_queues, h]
  · intro h1 h2
    simp [determine_queues, h1, h2]
  · intro h1 h2
    simp [determine_queues, push_job_to_queues, h1, h2]

/-- C5 witness: a pinned job routes to its worker queue only, and a job with
neither pin nor capability is rejected without a push. -/
theorem C5_dispatcher_first_match_witness :
    determine_queues ({ job_id := "j1", worker_id := some ("w9") }) = [("jobs:w9")] ∧
    push_job_to_queues ({ job_id := "j2" }) = (false, []) :=
  ⟨(C5_dispatcher_first_match ({ job_id := "j1", worker_id := some ("w9") })).1 rfl,
   ((C5_dispatcher_first_match ({ job_id := "j2" })).2.2 rfl rfl).2⟩

/-- C5 counterexample: the source dispatcher enqueues the raw compute unit
tag, not the normalized tag the claim describes. -/
theorem C5_counterexample :
    determine_queues ({ job_id := "j1", compute_unit := some ("CPU (ONNX)") }) =
      [("jobs:capability:CPU (ONNX)")] ∧
    determine_queues_spec ({ job_id := "j1", compute_unit := some ("CPU (ONNX)") }) =
      [("jobs:capability:cpu_onnx")] ∧
    ("jobs:capability:CPU (ONNX)") ≠ ("jobs:capability:cpu_onnx") := by
  refine ⟨rfl, by decide, by decide⟩

/-!
Claim C3: worker status updates against the section 4.6 state machine.
-/

/-- C3 (amended): the StateMachine class implements exactly the section 4.6
graph and its transition raises InvalidStateTransition exactly outside the
graph, but the store is not wired to it: update_worker_status applies any
target status to an existing worker unconditionally and refreshes last_seen. -/
theorem C3_store_does_not_validate_transitions :
    (∀ a b : WorkerState, can_transition a b = spec_graph a b) ∧
    (∀ a b : WorkerState,
      transition a b =
        if spec_graph a b then Except.ok b
        else Except.error ("InvalidStateTransition")) ∧
    (∀ (s : Store) (now : Nat) (wid st : String) (w : Worker),
      alGet wid s.workers = some w →
      alGet wid (update_worker_status now wid st s).workers =
        some ({ w with status := st, last_seen := now })) := by
  refine ⟨?_, ?_, ?_⟩
  · intro a b
    cases a <;> cases b <;> rfl
  · intro a b
    cases a <;> cases b <;> rfl
  · intro s now wid st w hw
    simp [update_worker_status, alGet_alModify, hw]

/-- C3 witness: a graph-internal transition applied through the store. -/
theorem C3_store_does_not_validate_transitions_witness :
    alGet ("w1") (update_worker_status 5 ("w1") ("busy")
        (register_worker 0 ("w1") {} {})).workers =
      some ({ status := "busy", registered_at := 0, last_seen := 5 }) :=
  (C3_store_does_not_validate_transitions).2.2
    (register_worker 0 ("w1") {} {}) 5 ("w1") ("busy")
    ({ status := "active", registered_at := 0, last_seen := 0 }) rfl

/-- C3 counterexample: active to cleanup is outside the section 4.6 graph,
yet the store applies it with no error and the worker status changes. -/
theorem C3_counterexample :
    spec_graph WorkerState.active WorkerState.cleanup = false ∧
    (alGet ("w1") (register_worker 0 ("w1") {} {}).workers).map Worker.status =
      some ("active") ∧
    (alGet ("w1") (update_worker_status 1 ("w1") ("cleanup")
        (register_worker 0 ("w1") {} {})).workers).map Worker.status =
      some ("cleanup") := by
  refine ⟨rfl, rfl, rfl⟩

/-!
Claim C6: deterministic and idempotent worker registration.
-/

/-- N registrations of the same payload, one per random draw in freshes. -/
def register_many (md5hex12 : String → String) (freshes : List String) (now : Nat)
    (device_name ip_address : String) (capabilities : List String) (d : DeviceInfo)
    (s : Store) : Store :=
  freshes.foldl
    (fun s f =>
      (register_worker_endpoint md5hex12 f now device_name ip_address capabilities d s).fst) s

theorem worker_id_fresh_independent (md5hex12 : String → String) (f1 f2 : String)
    (d : DeviceInfo)
    (h : truthyStr d.udid = true ∨ stripUnderscores (device_key d) ≠ "") :
    get_deterministic_worker_id md5hex12 f1 d = get_deterministic_worker_id md5hex12 f2 d := by
  by_cases hu : truthyStr d.udid
  · simp [get_deterministic_worker_id, hu]
  · rcases h with h | h
    · exact absurd h hu
    · simp [get_deterministic_worker_id, hu, h]

theorem register_endpoint_countKey_one (md5hex12 : String → String) (f : String)
    (now : Nat) (dn ip : String) (caps : List String) (d : DeviceInfo) (s : Store)
    (wid : String) (hwid : get_deterministic_worker_id md5hex12 f d = wid)
    (h : countKey wid s.workers = 0 ∨ countKey wid s.workers = 1) :
    countKey wid
      (register_worker_endpoint md5hex12 f now dn ip caps d s).fst.workers = 1 := by
  rcases h with h | h
  · have hget : alGet wid s.workers = none := (alGet_none_iff_countKey_zero _ _).mpr h
    simp only [register_worker_endpoint, hwid, hget]
    simp [register_worker, countKey_alSet_of_none _ _ _ hget, h]
  · have hget : alGet wid s.workers ≠ none := by
      intro hn
      rw [alGet_none_iff_countKey_zero] at hn
      omega
    obtain ⟨w, hw⟩ := Option.ne_none_iff_exists.mp hget
    simp only [register_worker_endpoint, hwid, hw.symm]
    simp [update_worker_status, countKey_alModify, h]

theorem register_many_countKey_one (md5hex12 : String → String) (freshes : List String)
    (now : Nat) (dn ip : String) (caps : List String) (d : DeviceInfo)
    (hderm : truthyStr d.udid = true ∨ stripUnderscores (device_key d) ≠ "") :
    ∀ (s : Store) (wid : String),
      get_deterministic_worker_id md5hex12 ("") d = wid →
      (countKey wid s.workers = 0 ∨ countKey wid s.workers = 1) →
      freshes ≠ [] →
      countKey wid (register_many md5hex12 freshes now dn ip caps d s).workers = 1 := by
  induction freshes with
  | nil => intro s wid _ _ hne; exact absurd rfl hne
  | cons f fs ih =>
      intro s wid hwid h _
      have hwf : get_deterministic_worker_id md5hex12 f d = wid :=
        (worker_id_fresh_independent md5hex12 f ("") d hderm).trans hwid
      have h1 := register_endpoint_countKey_one md5hex12 f now dn ip caps d s wid hwf h
      rcases List.eq_nil_or_concat fs with hfs | _
      · subst hfs
        simpa [register_many] using h1
      · have := ih _ wid hwid (Or.inr h1) (by
          rcases fs with _ | ⟨g, gs⟩
          · simp_all
          · simp)
        simpa [register_many] using this

/-- C6 (amended): worker id derivation reads only the UDID when one is
truthy, and otherwise only the (device_name, soc, ram, os) key, so equal
inputs give equal ids in those two cases; and any positive number of
registrations of a payload whose id derivation is deterministic (truthy UDID,
or a device key that survives stripping underscores) leaves exactly one row
under that id. When both fall through, the id is a fresh random draw per
request, so determinism fails there. -/
theorem C6_registration_deterministic_idempotent :
    (∀ (md5hex12 : String → String) (f1 f2 u : String) (d1 d2 : DeviceInfo),
      d1.udid = some u → d2.udid = some u → u ≠ "" →
      get_deterministic_worker_id md5hex12 f1 d1 = get_deterministic_worker_id md5hex12 f2 d2) ∧
    (∀ (md5hex12 : String → String) (f1 f2 : String) (d1 d2 : DeviceInfo),
      truthyStr d1.udid = false → truthyStr d2.udid = false →
      device_key d1 = device_key d2 → stripUnderscores (device_key d1) ≠ "" →
      get_deterministic_worker_id md5hex12 f1 d1 = get_deterministic_worker_id md5hex12 f2 d2) ∧
    (∀ (md5hex12 : String → String) (freshes : List String) (now : Nat)
      (dn ip : String) (caps : List String) (d : DeviceInfo) (s : Store) (wid : String),
      (truthyStr d.udid = true ∨ stripUnderscores (device_key d) ≠ "") →
      get_deterministic_worker_id md5hex12 ("") d = wid →
      countKey wid s.workers = 0 → freshes ≠ [] →
      countKey wid (register_many md5hex12 freshes now dn ip caps d s).workers = 1) := by
  refine ⟨?_, ?_, ?_⟩
  · intro md5hex12 f1 f2 u d1 d2 h1 h2 hu
    simp [get_deterministic_worker_id, h1, h2, truthyStr, hu]
  · intro md5hex12 f1 f2 d1 d2 h1 h2 hkey hne
    simp [get_deterministic_worker_id, h1, h2, hkey, hne, hkey ▸ hne]
  · intro md5hex12 freshes now dn ip caps d s wid hderm hwid h0 hne
    exact register_many_countKey_one md5hex12 freshes now dn ip caps d hderm s wid hwid
      (Or.inl h0) hne

/-- C6 witness: same UDID with different device names gives the same id, and
two registrations of one UDID-bearing payload leave exactly one row. -/
theorem C6_registration_deterministic_idempotent_witness :
    get_deterministic_worker_id (fun x => x) ("f1")
        ({ udid := some ("U-1"), device_name := some ("A") }) =
      get_deterministic_worker_id (fun x => x) ("f2")
        ({ udid := some ("U-1"), device_name := some ("B") }) ∧
    countKey ("worker-U-1")
      (register_many (fun x => x) [("f1"), ("f2")] 3 ("dev") ("ip") []
        ({ udid := some ("U-1") }) {}).workers = 1 :=
  ⟨(C6_registration_deterministic_idempotent).1 (fun x => x) ("f1") ("f2") ("U-1")
      ({ udid := some ("U-1"), device_name := some ("A") })
      ({ udid := some ("U-1"), device_name := some ("B") }) rfl rfl (by decide),
   (C6_registration_deterministic_idempotent).2.2 (fun x => x) [("f1"), ("f2")] 3
      ("dev") ("ip") [] ({ udid := some ("U-1") }) {} ("worker-U-1") (Or.inl rfl) rfl
      (by decide) (by decide)⟩

/-- C6 counterexample: a payload with no UDID and all-empty identification
fields falls to the random last resort, so two registration requests with the
same device info derive different ids and leave two worker rows. -/
theorem C6_counterexample :
    get_deterministic_worker_id (fun x => x) ("aaaa")
        ({ device_name := some (""), soc := some (""), ram := some (""),
           device_os := some ("") }) = ("worker-aaaa") ∧
    get_deterministic_worker_id (fun x => x) ("bbbb")
        ({ device_name := some (""), soc := some (""), ram := some (""),
           device_os := some ("") }) = ("worker-bbbb") ∧
    ("worker-aaaa") ≠ ("worker-bbbb") ∧
    (register_worker_endpoint (fun x => x) ("bbbb") 1 ("dev") ("ip") []
        ({ device_name := some (""), soc := some (""), ram := some (""),
           device_os := some ("") })
        (register_worker_endpoint (fun x => x) ("aaaa") 0 ("dev") ("ip") []
          ({ device_name := some (""), soc := some (""), ram := some (""),
             device_os := some ("") }) {}).fst).fst.workers.length = 2 := by
  refine ⟨rfl, rfl, by decide, by decide⟩

/-!
Campaign-map shape lemmas for the processor and the step relation.
-/

theorem ucp_alGet (cid2 cid : String) (st : Option String) (b1 b2 : Bool) (s : Store) :
    alGet cid2 (update_campaign_progress cid st b1 b2 s).campaigns =
      if cid2 = cid then
        (alGet cid s.campaigns).map (fun c =>
          let c := if b1 then { c with completed_jobs := c.completed_jobs + 1 } else c
          let c := if b2 then { c with failed_jobs := c.failed_jobs + 1 } else c
          if truthyStr st then { c with status := st.getD "" } else c)
      else alGet cid2 s.campaigns :=
  alGet_alModify _ _ _ _

theorem inc_stage_shape (cM cid : String) (b1 b2 : Bool) (s : Store) (c : Campaign)
    (hb : b1 = false ∨ b2 = false)
    (h : alGet cid (update_campaign_progress cM none b1 b2 s).campaigns = some c) :
    ∃ c0, alGet cid s.campaigns = some c0 ∧ c.total_jobs = c0.total_jobs ∧
      c0.completed_jobs ≤ c.completed_jobs ∧ c0.failed_jobs ≤ c.failed_jobs ∧
      c.completed_jobs + c.failed_jobs ≤ c0.completed_jobs + c0.failed_jobs + 1 ∧
      c.status = c0.status := by
  rw [ucp_alGet] at h
  by_cases hc : cid = cM
  · rw [if_pos hc] at h
    rcases hmap : alGet cM s.campaigns with _ | c0
    · rw [hmap] at h
      simp at h
    · rw [hmap] at h
      rw [Option.map_some'] at h
      have hfc := Option.some_inj.mp h
      refine ⟨c0, by rw [hc, hmap], ?_⟩
      subst hfc
      rcases hb with hb | hb
      · subst hb
        cases b2 <;> simp [truthyStr] <;> omega
      · subst hb
        cases b1 <;> simp [truthyStr] <;> omega
  · rw [if_neg hc] at h
    exact ⟨c, h, rfl, le_refl _, le_refl _, by omega, rfl⟩

theorem mark_stage_shape (cM cid : String) (s : Store) (c : Campaign)
    (h : alGet cid
      (update_campaign_progress cM (some ("completed")) false false s).campaigns = some c) :
    (¬cid = cM ∧ alGet cid s.campaigns = some c) ∨
    (cid = cM ∧ ∃ c0, alGet cM s.campaigns = some c0 ∧
      c = { c0 with status := "completed" }) := by
  rw [ucp_alGet] at h
  by_cases hc : cid = cM
  · right
    refine ⟨hc, ?_⟩
    rw [if_pos hc] at h
    rcases hmap : alGet cM s.campaigns with _ | c0
    · rw [hmap] at h
      simp at h
    · rw [hmap] at h
      rw [Option.map_some'] at h
      have hfc := Option.some_inj.mp h
      exact ⟨c0, rfl, by rw [← hfc]; simp [truthyStr]⟩
  · left
    rw [if_neg hc] at h
    exact ⟨hc, h⟩

/-- Every campaign row visible after one processor step comes from a row of
the same campaign id before the step, with the same total_jobs, counters that
grew by at most one in sum, and a status that is either unchanged or was just
set to completed at a moment when the counters had reached a positive
total_jobs. -/
theorem process_result_campaign_shape (now : Nat) (m : ResultMsg) (s : Store)
    (cid : String) (c : Campaign)
    (h : alGet cid (process_single_result now m s).campaigns = some c) :
    ∃ c0, alGet cid s.campaigns = some c0 ∧
      c.total_jobs = c0.total_jobs ∧
      c0.completed_jobs ≤ c.completed_jobs ∧ c0.failed_jobs ≤ c.failed_jobs ∧
      c.completed_jobs + c.failed_jobs ≤ c0.completed_jobs + c0.failed_jobs + 1 ∧
      (c.status = c0.status ∨
        (c.status = "completed" ∧ 0 < c.total_jobs ∧
          c.total_jobs ≤ c.completed_jobs + c.failed_jobs)) := by
  by_cases hcamp : truthyStr m.campaign_id
  · simp only [process_single_result, hcamp, if_true] at h
    set s2 := update_job_status now m.job_id m.status none (save_result now m s) with hs2
    have hs2c : s2.campaigns = s.campaigns := rfl
    set cM := m.campaign_id.getD "" with hcM
    set s3 := if m.status = "Complete" then update_campaign_progress cM none true false s2
      else if m.status = "Failed" then update_campaign_progress cM none false true s2
      else s2 with hs3
    have stage3 : ∀ (cid2 : String) (c2 : Campaign),
        alGet cid2 s3.campaigns = some c2 →
        ∃ c0, alGet cid2 s.campaigns = some c0 ∧ c2.total_jobs = c0.total_jobs ∧
          c0.completed_jobs ≤ c2.completed_jobs ∧ c0.failed_jobs ≤ c2.failed_jobs ∧
          c2.completed_jobs + c2.failed_jobs ≤ c0.completed_jobs + c0.failed_jobs + 1 ∧
          c2.status = c0.status := by
      intro cid2 c2 h2
      rw [hs3] at h2
      by_cases hC : m.status = "Complete"
      · rw [if_pos hC] at h2
        have := inc_stage_shape cM cid2 true false s2 c2 (Or.inr rfl) h2
        rwa [hs2c] at this
      · rw [if_neg hC] at h2
        by_cases hF : m.status = "Failed"
        · rw [if_pos hF] at h2
          have := inc_stage_shape cM cid2 false true s2 c2 (Or.inl rfl) h2
          rwa [hs2c] at this
        · rw [if_neg hF] at h2
          rw [hs2c] at h2
          exact ⟨c2, h2, rfl, le_refl _, le_refl _, by omega, rfl⟩
    split at h
    · rename_i camp hmatch
      split at h
      · rename_i hdone
        rcases mark_stage_shape cM cid s3 c h with ⟨hne, hget⟩ | ⟨hceq, c1, hc1get, hcval⟩
        · obtain ⟨c0, hc0, ht, hca, hcb, hle, hst⟩ := stage3 cid c hget
          exact ⟨c0, hc0, ht, hca, hcb, hle, Or.inl hst⟩
        · rw [hc1get] at hmatch
          injection hmatch with hcampeq
          obtain ⟨c0, hc0, ht, hca, hcb, hle, _⟩ := stage3 cM c1 hc1get
          subst hcval
          refine ⟨c0, hceq ▸ hc0, ht, hca, hcb, hle, Or.inr ⟨rfl, ?_, ?_⟩⟩
          · simpa [hcampeq] using hdone.2
          · simpa [hcampeq] using hdone.1
      · obtain ⟨c0, hc0, ht, hca, hcb, hle, hst⟩ := stage3 cid c h
        exact ⟨c0, hc0, ht, hca, hcb, hle, Or.inl hst⟩
    · obtain ⟨c0, hc0, ht, hc1, hc2b, hle, hst⟩ := stage3 cid c h
      exact ⟨c0, hc0, ht, hc1, hc2b, hle, Or.inl hst⟩
  · simp only [process_single_result, hcamp] at h
    simp at h
    exact ⟨c, h, rfl, le_refl _, le_refl _, by omega, Or.inl rfl⟩

theorem foldl_campaigns_invariant {β : Type} (f : Store → β → Store)
    (hf : ∀ s x, (f s x).campaigns = s.campaigns) :
    ∀ (l : List β) (s : Store), (l.foldl f s).campaigns = s.campaigns := by
  intro l
  induction l with
  | nil => intro s; rfl
  | cons x xs ih =>
      intro s
      rw [List.foldl_cons, ih, hf]

theorem create_campaign_endpoint_campaigns (now : Nat) (url : String)
    (jobs : List JobSpec) (s : Store) :
    (create_campaign_endpoint now url jobs s).fst.campaigns =
      alSet ("campaign-" ++ toString now)
        ({ model_url := url, total_jobs := jobs.length, created_at := now,
           status := "running" }) s.campaigns := by
  simp only [create_campaign_endpoint]
  have h := foldl_campaigns_invariant
    (fun (s : Store) (iandspec : Nat × JobSpec) =>
      create_job now ("campaign-" ++ toString now ++ "-job-" ++ toString iandspec.fst)
        ({ campaign_id := "campaign-" ++ toString now, model_url := url,
           compute_unit := some (iandspec.snd.compute_unit.getD "CPU"),
           worker_id := iandspec.snd.worker_id,
           num_inference_runs := iandspec.snd.num_inference_runs }) s)
    (fun s x => rfl) ((List.range jobs.length).zip jobs)
    (create_campaign now ("campaign-" ++ toString now) url jobs.length s)
  exact h.trans rfl

theorem register_worker_endpoint_campaigns (md5hex12 : String → String) (fresh : String)
    (now : Nat) (dn ip : String) (caps : List String) (d : DeviceInfo) (s : Store) :
    (register_worker_endpoint md5hex12 fresh now dn ip caps d s).fst.campaigns =
      s.campaigns := by
  simp only [register_worker_endpoint]
  split <;> rfl

theorem timeout_campaign_shape (p : RetryPolicy) (now : Nat) (job_id : String) (job : Job)
    (ts : TimeoutState) (cid : String) (c : Campaign)
    (h : alGet cid (handle_job_timeout p now job_id job ts).store.campaigns = some c) :
    ∃ c0, alGet cid ts.store.campaigns = some c0 ∧
      c.total_jobs = c0.total_jobs ∧ c.status = c0.status := by
  simp only [handle_job_timeout] at h
  split at h
  · by_cases hw : truthyStr job.worker_id
    · simp only [hw, if_true] at h
      exact ⟨c, h, rfl, rfl⟩
    · simp [hw] at h
      exact ⟨c, h, rfl, rfl⟩
  · by_cases hcmp : job.campaign_id = ""
    · simp [hcmp] at h
      by_cases hw : truthyStr job.worker_id
      · simp only [hw, if_true] at h
        exact ⟨c, h, rfl, rfl⟩
      · simp [hw] at h
        exact ⟨c, h, rfl, rfl⟩
    · simp [hcmp] at h
      by_cases hw : truthyStr job.worker_id
      · simp only [hw, if_true] at h
        obtain ⟨c0, hc0, ht, _, _, _, hst⟩ :=
          inc_stage_shape job.campaign_id cid false true _ c (Or.inl rfl) h
        exact ⟨c0, hc0, ht, hst⟩
      · simp [hw] at h
        obtain ⟨c0, hc0, ht, _, _, _, hst⟩ :=
          inc_stage_shape job.campaign_id cid false true _ c (Or.inl rfl) h
        exact ⟨c0, hc0, ht, hst⟩

theorem sysStep_preserves_zero_total {s s2 : Store} (hstep : SysStep s s2)
    (hinv : ∀ cid c, alGet cid s.campaigns = some c → c.total_jobs = 0 →
      c.status ≠ "completed") :
    ∀ cid c, alGet cid s2.campaigns = some c → c.total_jobs = 0 →
      c.status ≠ "completed" := by
  cases hstep with
  | register md5hex12 fresh now dn ip caps d =>
      intro cid c h
      rw [register_worker_endpoint_campaigns] at h
      exact hinv cid c h
  | put_worker_status now wid st hst =>
      intro cid c h
      exact hinv cid c h
  | heartbeat now wid w hw =>
      intro cid c h
      exact hinv cid c h
  | reset_worker now wid w hw hf =>
      intro cid c h
      exact hinv cid c h
  | mark_faulty now wid w hw hnf =>
      intro cid c h
      exact hinv cid c h
  | create_campaign_req now url jobs =>
      intro cid c h h0
      rw [create_campaign_endpoint_campaigns, alGet_alSet] at h
      by_cases hc : cid = "campaign-" ++ toString now
      · rw [if_pos hc] at h
        injection h with h
        rw [← h]
        simp
      · rw [if_neg hc] at h
        exact hinv cid c h h0
  | process_result now m =>
      intro cid c h h0
      obtain ⟨c0, hc0, ht, _, _, _, hst⟩ := process_result_campaign_shape now m s cid c h
      rcases hst with hst | ⟨_, hpos, _⟩
      · rw [hst]
        exact hinv cid c0 hc0 (ht ▸ h0)
      · omega
  | job_timeout p dt now jid job hh pushed hj hrun t hstt hto =>
      intro cid c h h0
      obtain ⟨c0, hc0, ht, hst⟩ := timeout_campaign_shape p now jid job ⟨_, hh, pushed⟩ cid c h
      rw [hst]
      exact hinv cid c0 hc0 (ht ▸ h0)
  | reset_all =>
      intro cid c h
      simp [alGet] at h

/-!
Claim C8: a campaign submitted with an empty jobs list.
-/

/-- C8 (amended): a campaign with an empty jobs list is accepted and created
with total_jobs 0, but its status on create is running, not completed, and in
every reachable store state a campaign with total_jobs 0 never has status
completed (the processor only marks campaigns with positive total_jobs). -/
theorem C8_empty_campaign_running :
    (∀ (now : Nat) (url : String) (s : Store),
      alGet ("campaign-" ++ toString now)
        (create_campaign_endpoint now url [] s).fst.campaigns =
        some ({ model_url := url, total_jobs := 0, created_at := now,
                status := "running" })) ∧
    (∀ s : Store, Reachable s → ∀ cid c, alGet cid s.campaigns = some c →
      c.total_jobs = 0 → c.status ≠ "completed") := by
  constructor
  · intro now url s
    rw [create_campaign_endpoint_campaigns, alGet_alSet, if_pos rfl]
    rfl
  · intro s hreach
    induction hreach with
    | refl =>
        intro cid c h
        simp [alGet] at h
    | tail hsteps hstep ih => exact sysStep_preserves_zero_total hstep ih

/-- C8 witness: request at time 5 with no jobs lands as a running zero-job
campaign that the reachability invariant keeps away from completed. -/
theorem C8_empty_campaign_running_witness :
    alGet ("campaign-5") (create_campaign_endpoint 5 ("u") [] ({} : Store)).fst.campaigns =
      some ({ model_url := "u", total_jobs := 0, created_at := 5,
              status := "running" }) ∧
    ({ model_url := "u", total_jobs := 0, created_at := 5,
       status := "running" } : Campaign).status ≠ ("completed") :=
  ⟨(C8_empty_campaign_running).1 5 ("u") {},
   (C8_empty_campaign_running).2 _
     (Relation.ReflTransGen.single (SysStep.create_campaign_req {} 5 ("u") []))
     ("campaign-5") _ ((C8_empty_campaign_running).1 5 ("u") {}) rfl⟩

/-- C8 counterexample: the zero-job campaign is created with status running,
not the claimed completed. -/
theorem C8_counterexample :
    (alGet ("campaign-5")
        (create_campaign_endpoint 5 ("u") [] ({} : Store)).fst.campaigns).map
      Campaign.status = some ("running") ∧
    ("running") ≠ ("completed") := by
  refine ⟨rfl, by decide⟩

/-!
Claim C2: idempotency of the result processor.
-/

theorem results_after_final_stage (X : Store) (cM : String) :
    (match alGet cM X.campaigns with
     | some camp =>
        if camp.completed_jobs + camp.failed_jobs ≥ camp.total_jobs ∧ camp.total_jobs > 0 then
          update_campaign_progress cM (some ("completed")) false false X
        else X
     | none => X).results = X.results := by
  split
  · split <;> rfl
  · rfl

theorem process_result_results (now : Nat) (m : ResultMsg) (s : Store) :
    (process_single_result now m s).results = alSet m.job_id ⟨m, now⟩ s.results := by
  simp only [process_single_result]
  split
  · rw [results_after_final_stage]
    split
    · rfl
    · split <;> rfl
  · rfl

theorem process_result_increments (now : Nat) (m : ResultMsg) (s : Store)
    (cname : String) (camp : Campaign)
    (hc : m.campaign_id = some cname) (hne : cname ≠ "")
    (hst : m.status = "Complete" ∨ m.status = "Failed")
    (hcamp : alGet cname s.campaigns = some camp) :
    (alGet cname (process_single_result now m s).campaigns).map
      (fun c => c.completed_jobs + c.failed_jobs) =
      some (camp.completed_jobs + camp.failed_jobs + 1) := by
  have htr2 : truthyStr (some cname) = true := by simp [truthyStr, hne]
  simp only [process_single_result, hc, Option.getD_some, htr2, if_true]
  have hs2c : alGet cname
      (update_job_status now m.job_id m.status none (save_result now m s)).campaigns =
      some camp := hcamp
  rcases hst with hC | hF
  · rw [if_pos hC]
    have hval : alGet cname (update_campaign_progress cname none true false
        (update_job_status now m.job_id m.status none (save_result now m s))).campaigns =
        some ({ camp with completed_jobs := camp.completed_jobs + 1 }) := by
      rw [ucp_alGet, if_pos rfl, hs2c]
      rfl
    split
    · rename_i c3 hc3
      rw [hval] at hc3
      injection hc3 with hc3
      subst hc3
      split
      · rw [ucp_alGet, if_pos rfl, hval]
        simp [truthyStr]
        omega
      · rw [hval]
        simp
        omega
    · rename_i hc3
      rw [hval] at hc3
      exact absurd hc3 (by simp)
  · have hnc : ¬m.status = "Complete" := by
      rw [hF]
      decide
    rw [if_neg hnc, if_pos hF]
    have hval : alGet cname (update_campaign_progress cname none false true
        (update_job_status now m.job_id m.status none (save_result now m s))).campaigns =
        some ({ camp with failed_jobs := camp.failed_jobs + 1 }) := by
      rw [ucp_alGet, if_pos rfl, hs2c]
      rfl
    split
    · rename_i c3 hc3
      rw [hval] at hc3
      injection hc3 with hc3
      subst hc3
      split
      · rw [ucp_alGet, if_pos rfl, hval]
        simp [truthyStr]
        omega
      · rw [hval]
        simp
        omega
    · rename_i hc3
      rw [hval] at hc3
      exact absurd hc3 (by simp)

/-- C2 (amended): the processor applies every terminal result message
unconditionally: for any store state, a Complete or Failed message for an
existing campaign raises that campaign counter sum by exactly one, with no
check of the job current status, so a second terminal result for an
already-terminal job double-counts; the stored result row is overwritten
last-writer-wins as claimed. -/
theorem C2_processor_counts_messages (now : Nat) (m : ResultMsg) (s : Store)
    (cname : String) (camp : Campaign)
    (hc : m.campaign_id = some cname) (hne : cname ≠ "")
    (hst : m.status = "Complete" ∨ m.status = "Failed")
    (hcamp : alGet cname s.campaigns = some camp) :
    (alGet cname (process_single_result now m s).campaigns).map
      (fun c => c.completed_jobs + c.failed_jobs) =
      some (camp.completed_jobs + camp.failed_jobs + 1) ∧
    alGet m.job_id (process_single_result now m s).results = some ⟨m, now⟩ := by
  refine ⟨process_result_increments now m s cname camp hc hne hst hcamp, ?_⟩
  rw [process_result_results, alGet_alSet, if_pos rfl]

/-- The store of the C2 scenario: job j1 of campaign c1 is already terminal
(status complete) and already counted (completed_jobs 1 of 2). -/
def c2_store : Store :=
  { campaigns := [(("c1"), { total_jobs := 2, completed_jobs := 1, status := "running" })],
    jobs := [(("j1"), { campaign_id := "c1", status := "complete", completed_at := some 1 })],
    results := [(("j1"), ⟨⟨"j1", some ("c1"), "Complete", []⟩, 1⟩)] }

/-- The duplicate terminal message of the C2 scenario. -/
def c2_msg : ResultMsg := ⟨"j1", some ("c1"), "Complete", []⟩

/-- C2 witness: the duplicate terminal message raises the counter sum of c1
from 1 to 2 and overwrites the stored result. -/
theorem C2_processor_counts_messages_witness :
    (alGet ("c1") (process_single_result 9 c2_msg c2_store).campaigns).map
      (fun c => c.completed_jobs + c.failed_jobs) = some (1 + 0 + 1) ∧
    alGet ("j1") (process_single_result 9 c2_msg c2_store).results =
      some ⟨c2_msg, 9⟩ :=
  C2_processor_counts_messages 9 c2_msg c2_store ("c1")
    ({ total_jobs := 2, completed_jobs := 1, status := "running" })
    rfl (by decide) (Or.inl rfl) rfl

/-- C2 counterexample: job j1 is already in terminal status complete and its
campaign counter already counts it, yet processing a second terminal result
with the same job id increments completed_jobs again, so the processor is not
idempotent per (job_id, terminal status). -/
theorem C2_counterexample :
    (alGet ("j1") c2_store.jobs).map Job.status = some ("complete") ∧
    (alGet ("c1") c2_store.campaigns).map Campaign.completed_jobs = some 1 ∧
    (alGet ("c1") (process_single_result 9 c2_msg c2_store).campaigns).map
      Campaign.completed_jobs = some 2 := by
  refine ⟨rfl, rfl, by decide⟩

/-!
Claim C1: the campaign counter invariant.
-/

/-- C1 (amended): campaign counters only grow under the processor, and the
processor marks a campaign completed only at a moment when its counters have
reached a positive total_jobs; the claimed upper bound
completed_jobs + failed_jobs at most total_jobs is not an invariant (a
duplicate terminal result overcounts), and equality does not force status
completed (a zero-job campaign keeps status running with 0 + 0 = 0). -/
theorem C1_completed_only_at_positive_total (now : Nat) (m : ResultMsg) (s : Store)
    (cid : String) (c c0 : Campaign)
    (hafter : alGet cid (process_single_result now m s).campaigns = some c)
    (hbefore : alGet cid s.campaigns = some c0)
    (hnot : c0.status ≠ "completed") (hdone : c.status = "completed") :
    0 < c.total_jobs ∧ c.total_jobs ≤ c.completed_jobs + c.failed_jobs ∧
    c0.completed_jobs ≤ c.completed_jobs ∧ c0.failed_jobs ≤ c.failed_jobs := by
  obtain ⟨c1, hc1, ht, hca, hcb, hle, hst⟩ :=
    process_result_campaign_shape now m s cid c hafter
  rw [hbefore] at hc1
  injection hc1 with hc1
  subst hc1
  rcases hst with hst | ⟨_, hpos, hge⟩
  · exact absurd (hst.symm.trans hdone) hnot
  · exact ⟨hpos, hge, hca, hcb⟩

/-- C1 witness: one Complete result for the only job of a one-job running
campaign marks it completed with counters 1 + 0 at total 1. -/
theorem C1_completed_only_at_positive_total_witness :
    (0 : Nat) < 1 ∧ (1 : Nat) ≤ 1 + 0 ∧ (0 : Nat) ≤ 1 ∧ (0 : Nat) ≤ 0 :=
  C1_completed_only_at_positive_total 2 ⟨"j1", some ("c1"), "Complete", []⟩
    ({ campaigns := [(("c1"), { total_jobs := 1, status := "running" })] }) ("c1")
    ({ total_jobs := 1, completed_jobs := 1, status := "completed" })
    ({ total_jobs := 1, status := "running" })
    (by decide) rfl (by decide) rfl

/-- C1 counterexample: a reachable state (create a one-job campaign, then
process the same Complete result twice, as at-least-once delivery permits)
holds a campaign with completed_jobs 2 and total_jobs 1, refuting the bound
completed_jobs + failed_jobs at most total_jobs. -/
theorem C1_counterexample :
    Reachable (process_single_result 7 ⟨"campaign-5-job-0", some ("campaign-5"), "Complete", []⟩
      (process_single_result 6 ⟨"campaign-5-job-0", some ("campaign-5"), "Complete", []⟩
        (create_campaign_endpoint 5 ("u") [⟨some ("CPU"), none, 10⟩] {}).fst)) ∧
    (alGet ("campaign-5")
        (process_single_result 7 ⟨"campaign-5-job-0", some ("campaign-5"), "Complete", []⟩
          (process_single_result 6 ⟨"campaign-5-job-0", some ("campaign-5"), "Complete", []⟩
            (create_campaign_endpoint 5 ("u") [⟨some ("CPU"), none, 10⟩] {}).fst)).campaigns).map
      (fun c => (c.completed_jobs, c.failed_jobs, c.total_jobs)) = some (2, 0, 1) ∧
    ¬((2 : Nat) + 0 ≤ 1) := by
  refine ⟨?_, by decide, by decide⟩
  exact Relation.ReflTransGen.tail
    (Relation.ReflTransGen.tail
      (Relation.ReflTransGen.single
        (SysStep.create_campaign_req {} 5 ("u") [⟨some ("CPU"), none, 10⟩]))
      (SysStep.process_result _ 6 ⟨"campaign-5-job-0", some ("campaign-5"), "Complete", []⟩))
    (SysStep.process_result _ 7 ⟨"campaign-5-job-0", some ("campaign-5"), "Complete", []⟩)

/-!
Claim C4: the job timeout handler.
-/

theorem campaigns_update_job_status (now : Nat) (jid st : String) (wid : Option String)
    (s : Store) : (update_job_status now jid st wid s).campaigns = s.campaigns := rfl

theorem campaigns_update_worker_status (now : Nat) (wid st : String) (s : Store) :
    (update_worker_status now wid st s).campaigns = s.campaigns := rfl

theorem jobs_update_worker_status (now : Nat) (wid st : String) (s : Store) :
    (update_worker_status now wid st s).jobs = s.jobs := rfl

theorem jobs_update_campaign_progress (cid : String) (st : Option String) (b1 b2 : Bool)
    (s : Store) : (update_campaign_progress cid st b1 b2 s).jobs = s.jobs := rfl

theorem ujs_timed_out_alGet (now : Nat) (jid : String) (s : Store) :
    alGet jid (update_job_status now jid ("timed_out") none s).jobs =
      (alGet jid s.jobs).map (fun j => { j with status := "timed_out" }) := by
  simp only [update_job_status]
  rw [alGet_alModify, if_pos rfl]
  rfl

theorem ujs_failed_alGet (now : Nat) (jid : String) (s : Store) :
    alGet jid (update_job_status now jid ("failed") none s).jobs =
      (alGet jid s.jobs).map
        (fun j => { j with status := "failed", completed_at := some now }) := by
  simp only [update_job_status]
  rw [alGet_alModify, if_pos rfl]
  rfl

/-- C4 (amended): on a timed-out job whose retry policy still allows an
attempt, the handler records a retry with reason job_timeout and pushes the
job id onto the capability queue of a truthy compute_unit, but the stored job
keeps status timed_out and keeps its worker pin (the pending record with a
cleared pin is built only in a local dict that is never persisted); when no
attempt remains, the stored job becomes failed with completed_at stamped, and
the failed counter of a present truthy campaign is incremented. -/
theorem C4_timeout_handler_behavior (p : RetryPolicy) (now : Nat) (jid : String)
    (job : Job) (ts : TimeoutState) (j0 : Job)
    (hj0 : alGet jid ts.store.jobs = some j0) :
    (get_attempt_count ts.history jid < p.max_attempts →
      (handle_job_timeout p now jid job ts).history =
        record_retry now jid ("job_timeout") (get_attempt_count ts.history jid) ts.history ∧
      (truthyStr job.compute_unit = true →
        (handle_job_timeout p now jid job ts).pushed =
          ts.pushed ++ [("jobs:capability:" ++ job.compute_unit.getD "", jid)]) ∧
      (alGet jid (handle_job_timeout p now jid job ts).store.jobs).map Job.status =
        some ("timed_out") ∧
      (alGet jid (handle_job_timeout p now jid job ts).store.jobs).map Job.worker_id =
        some j0.worker_id) ∧
    (p.max_attempts ≤ get_attempt_count ts.history jid →
      (alGet jid (handle_job_timeout p now jid job ts).store.jobs).map Job.status =
        some ("failed") ∧
      (alGet jid (handle_job_timeout p now jid job ts).store.jobs).map Job.completed_at =
        some (some now) ∧
      (∀ camp0, job.campaign_id ≠ "" →
        alGet job.campaign_id ts.store.campaigns = some camp0 →
        (alGet job.campaign_id
            (handle_job_timeout p now jid job ts).store.campaigns).map
          Campaign.failed_jobs = some (camp0.failed_jobs + 1))) := by
  constructor
  · intro hlt
    have hsr : p.should_retry (get_attempt_count ts.history jid) = true := by
      simp [RetryPolicy.should_retry, hlt]
    have hrj : retry_job p now jid ("job_timeout") ts.history =
        (true, record_retry now jid ("job_timeout")
          (get_attempt_count ts.history jid) ts.history) := by
      simp [retry_job, hsr]
    refine ⟨?_, ?_, ?_, ?_⟩
    · simp [handle_job_timeout, hrj]
    · intro hcu
      simp [handle_job_timeout, hrj, hcu]
    · simp only [handle_job_timeout, hrj]
      simp only [ite_true, if_true]
      simp only [apply_ite Store.jobs, jobs_update_worker_status, ite_self]
      rw [ujs_timed_out_alGet, hj0]
      rfl
    · simp only [handle_job_timeout, hrj]
      simp only [ite_true, if_true]
      simp only [apply_ite Store.jobs, jobs_update_worker_status, ite_self]
      rw [ujs_timed_out_alGet, hj0]
      rfl
  · intro hge
    have hsr : p.should_retry (get_attempt_count ts.history jid) = false := by
      simp [RetryPolicy.should_retry]
      omega
    have hrj : retry_job p now jid ("job_timeout") ts.history = (false, ts.history) := by
      simp [retry_job, hsr]
    refine ⟨?_, ?_, ?_⟩
    · simp only [handle_job_timeout, hrj]
      simp only [Bool.false_eq_true, ite_false, if_false]
      by_cases hne : job.campaign_id = ""
      · simp only [hne, ne_eq, not_true_eq_false, ite_false, if_false]
        rw [ujs_failed_alGet]
        simp only [apply_ite Store.jobs, jobs_update_worker_status, ite_self]
        rw [ujs_timed_out_alGet, hj0]
        rfl
      · simp only [ne_eq, hne, not_false_eq_true, ite_true, if_true,
          jobs_update_campaign_progress]
        rw [ujs_failed_alGet]
        simp only [apply_ite Store.jobs, jobs_update_worker_status, ite_self]
        rw [ujs_timed_out_alGet, hj0]
        rfl
    · simp only [handle_job_timeout, hrj]
      simp only [Bool.false_eq_true, ite_false, if_false]
      by_cases hne : job.campaign_id = ""
      · simp only [hne, ne_eq, not_true_eq_false, ite_false, if_false]
        rw [ujs_failed_alGet]
        simp only [apply_ite Store.jobs, jobs_update_worker_status, ite_self]
        rw [ujs_timed_out_alGet, hj0]
        rfl
      · simp only [ne_eq, hne, not_false_eq_true, ite_true, if_true,
          jobs_update_campaign_progress]
        rw [ujs_failed_alGet]
        simp only [apply_ite Store.jobs, jobs_update_worker_status, ite_self]
        rw [ujs_timed_out_alGet, hj0]
        rfl
    · intro camp0 hne hcamp0
      simp only [handle_job_timeout, hrj]
      simp only [Bool.false_eq_true, ite_false, if_false]
      simp only [ne_eq, hne, not_false_eq_true, ite_true, if_true]
      rw [ucp_alGet, if_pos rfl]
      have hXc : (update_job_status now jid ("failed") none
          (if truthyStr job.worker_id = true then
            update_worker_status now (job.worker_id.getD "") ("faulty")
              (update_job_status now jid ("timed_out") none ts.store)
          else update_job_status now jid ("timed_out") none ts.store)).campaigns =
          ts.store.campaigns := by
        rw [campaigns_update_job_status]
        split <;> rfl
      rw [hXc, hcamp0]
      rfl

/-- The running pinned job of the C4 scenario. -/
def c4_job : Job :=
  { campaign_id := "c1", compute_unit := some ("CPU"), worker_id := some ("w1"),
    status := "running", started_at := some 0 }

/-- The handler state of the C4 scenario: fresh retry history, no pushes. -/
def c4_ts : TimeoutState :=
  { store :=
      { workers := [(("w1"), { status := "active" })],
        campaigns := [(("c1"), { total_jobs := 1, status := "running" })],
        jobs := [(("j1"), c4_job)] },
    history := [], pushed := [] }

/-- C4 witness: the amended behavior at the concrete scenario store. -/
theorem C4_timeout_handler_behavior_witness :
    ((handle_job_timeout ({} : RetryPolicy) 4000 ("j1") c4_job c4_ts).history =
        record_retry 4000 ("j1") ("job_timeout") (get_attempt_count c4_ts.history ("j1"))
          c4_ts.history ∧
      (truthyStr c4_job.compute_unit = true →
        (handle_job_timeout ({} : RetryPolicy) 4000 ("j1") c4_job c4_ts).pushed =
          c4_ts.pushed ++ [("jobs:capability:" ++ c4_job.compute_unit.getD "", "j1")]) ∧
      (alGet ("j1") (handle_job_timeout ({} : RetryPolicy) 4000 ("j1") c4_job
          c4_ts).store.jobs).map Job.status = some ("timed_out") ∧
      (alGet ("j1") (handle_job_timeout ({} : RetryPolicy) 4000 ("j1") c4_job
          c4_ts).store.jobs).map Job.worker_id = some c4_job.worker_id) :=
  ((C4_timeout_handler_behavior {} 4000 ("j1") c4_job c4_ts c4_job rfl).1 (by decide))

/-- C4 counterexample: with a retry allowed, the handler leaves the stored
job in status timed_out with its worker pin intact, contradicting the claim
that the status is set back to pending with the pin cleared; the retry record
and the capability-queue push do happen. -/
theorem C4_counterexample :
    (handle_job_timeout ({} : RetryPolicy) 4000 ("j1") c4_job c4_ts).history =
      [(("j1"), [⟨4000, ("job_timeout"), 1⟩])] ∧
    (handle_job_timeout ({} : RetryPolicy) 4000 ("j1") c4_job c4_ts).pushed =
      [(("jobs:capability:CPU"), ("j1"))] ∧
    (alGet ("j1") (handle_job_timeout ({} : RetryPolicy) 4000 ("j1") c4_job
        c4_ts).store.jobs).map Job.status = some ("timed_out") ∧
    ("timed_out") ≠ ("pending") ∧
    (alGet ("j1") (handle_job_timeout ({} : RetryPolicy) 4000 ("j1") c4_job
        c4_ts).store.jobs).map Job.worker_id = some (some ("w1")) := by
  refine ⟨by decide, by decide, by decide, by decide, by decide⟩

/-!
Claim C7: terminal job status written by the result processor.
-/

/-- The store of the C7 scenario: jobs j1 and j2 are running under campaign
c1 (total 3, so no completion marking interferes). -/
def c7_store : Store :=
  { campaigns := [(("c1"), { total_jobs := 3, status := "running" })],
    jobs := [(("j1"), { campaign_id := "c1", status := "running", started_at := some 1,
                        worker_id := some ("w1") }),
             (("j2"), { campaign_id := "c1", status := "running", started_at := some 1,
                        worker_id := some ("w2") })] }

/-- C7 evaluation at the failing input: the processor writes the raw result
status (capitalized Complete or Failed) onto the job, which is outside the
section 3 status set, and because the terminal check of update_job_status
compares against lowercase strings, completed_at is never stamped. -/
theorem C7_result_status_case_mismatch :
    (alGet ("j1") (process_single_result 9 ⟨"j1", some ("c1"), "Complete", []⟩
        c7_store).jobs).map Job.status = some ("Complete") ∧
    (alGet ("j1") (process_single_result 9 ⟨"j1", some ("c1"), "Complete", []⟩
        c7_store).jobs).map Job.completed_at = some none ∧
    (alGet ("j2") (process_single_result 9 ⟨"j2", some ("c1"), "Failed", []⟩
        c7_store).jobs).map Job.status = some ("Failed") ∧
    (alGet ("j2") (process_single_result 9 ⟨"j2", some ("c1"), "Failed", []⟩
        c7_store).jobs).map Job.completed_at = some none ∧
    ("Complete") ∉ [("pending"), ("running"), ("complete"), ("failed"),
      ("timed_out"), ("cancelled")] ∧
    ("Failed") ∉ [("pending"), ("running"), ("complete"), ("failed"),
      ("timed_out"), ("cancelled")] := by
  refine ⟨by decide, by decide, by decide, by decide, by decide, by decide⟩

end Sark
